import Mathlib

/-!
A shallow embedding of the rust-spdm wire codec, crypto capability registry and
Responder session-establishment handlers, together with theorems settling the
specification claims about them.

Bytes are modelled as natural numbers (the decoders only ever produce values
read from the wire, so no normalisation is applied on reads); machine-integer
arithmetic that can overflow in the source is modelled explicitly with mod or
with an explicit panic outcome.  Decoders take the remaining input as a list of
bytes and return the decoded value together with the unconsumed remainder, so
the state of the reader is the list itself.
-/

set_option autoImplicit false
set_option maxRecDepth 10000

namespace Spdm

abbrev Byte := Nat

/-! ### Codec primitives (the codec crate: little-endian integer reads and writes) -/

/-- Read one byte from the front of the input, as u8::read does. -/
def u8_read : List Byte → Option (Byte × List Byte)
  | [] => none
  | b :: r => some (b, r)

/-- Read a little-endian u16, as u16::read does. -/
def u16_read : List Byte → Option (Nat × List Byte)
  | b0 :: b1 :: r => some (b0 + b1 * 256, r)
  | _ => none

/-- Read a little-endian 3-byte u24, as u24::read does. -/
def u24_read : List Byte → Option (Nat × List Byte)
  | b0 :: b1 :: b2 :: r => some (b0 + b1 * 256 + b2 * 65536, r)
  | _ => none

/-- Write a u16 little-endian, as u16::encode does. -/
def u16_encode (n : Nat) : List Byte :=
  [n % 256, n / 256 % 256]

/-- Write a u24 little-endian over three bytes, as u24::encode does; the
value is silently truncated to 24 bits by the byte extraction. -/
def u24_encode (n : Nat) : List Byte :=
  [n % 256, n / 256 % 256, n / 65536 % 256]

/-- Read exactly `n` bytes one at a time, the shape of the
`for d in data.iter_mut().take(n) { *d = u8::read(r)?; }` loops in the source:
the whole read fails if the input runs out before `n` bytes are consumed. -/
def read_bytes : Nat → List Byte → Option (List Byte × List Byte)
  | 0, l => some ([], l)
  | _ + 1, [] => none
  | n + 1, b :: r =>
    match read_bytes n r with
    | none => none
    | some (ds, rest) => some (b :: ds, rest)

/-! ### Negotiated algorithm selections

Modelled from the spec: the algorithm enumerations live in
src/spdmlib/src/msgs/algorithm.rs which is not part of the provided sources;
the spec (section 3) lists the selections per family and the per-selection
sizes follow the SPDM algorithm table (hash output size, asymmetric signature
size, DHE exchange-data size), bounded by SPDM_MAX_HASH_SIZE = 64,
SPDM_MAX_ASYM_KEY_SIZE = 512 and SPDM_MAX_DHE_KEY_SIZE = 512. -/

def SPDM_MAX_HASH_SIZE : Nat := 64
def SPDM_MAX_ASYM_KEY_SIZE : Nat := 512
def SPDM_MAX_DHE_KEY_SIZE : Nat := 512

inductive SpdmBaseHashAlgo where
  | TPM_ALG_SHA_256
  | TPM_ALG_SHA_384
  | TPM_ALG_SHA_512
  | unset
deriving DecidableEq

def SpdmBaseHashAlgo.get_size : SpdmBaseHashAlgo → Nat
  | .TPM_ALG_SHA_256 => 32
  | .TPM_ALG_SHA_384 => 48
  | .TPM_ALG_SHA_512 => 64
  | .unset => 0

inductive SpdmBaseAsymAlgo where
  | TPM_ALG_RSASSA_2048
  | TPM_ALG_RSASSA_3072
  | TPM_ALG_RSASSA_4096
  | TPM_ALG_ECDSA_ECC_NIST_P256
  | TPM_ALG_ECDSA_ECC_NIST_P384
  | unset
deriving DecidableEq

def SpdmBaseAsymAlgo.get_size : SpdmBaseAsymAlgo → Nat
  | .TPM_ALG_RSASSA_2048 => 256
  | .TPM_ALG_RSASSA_3072 => 384
  | .TPM_ALG_RSASSA_4096 => 512
  | .TPM_ALG_ECDSA_ECC_NIST_P256 => 64
  | .TPM_ALG_ECDSA_ECC_NIST_P384 => 96
  | .unset => 0

inductive SpdmDheAlgo where
  | FFDHE_2048
  | FFDHE_3072
  | FFDHE_4096
  | SECP_256_R1
  | SECP_384_R1
  | SECP_521_R1
  | unset
deriving DecidableEq

def SpdmDheAlgo.get_size : SpdmDheAlgo → Nat
  | .FFDHE_2048 => 256
  | .FFDHE_3072 => 384
  | .FFDHE_4096 => 512
  | .SECP_256_R1 => 64
  | .SECP_384_R1 => 96
  | .SECP_521_R1 => 132
  | .unset => 0

/-- The negotiated selections the codec consults; fields as in the spec,
restricted to the families used by the claims. -/
structure SpdmNegotiateInfo where
  base_hash_sel : SpdmBaseHashAlgo
  base_asym_sel : SpdmBaseAsymAlgo
  dhe_sel : SpdmDheAlgo
deriving DecidableEq

/-- The context the codec threads through every encode and decode. -/
structure SpdmContext where
  negotiate_info : SpdmNegotiateInfo
deriving DecidableEq

def SpdmContext.get_hash_size (c : SpdmContext) : Nat :=
  c.negotiate_info.base_hash_sel.get_size

def SpdmContext.get_asym_key_size (c : SpdmContext) : Nat :=
  c.negotiate_info.base_asym_sel.get_size

def SpdmContext.get_dhe_key_size (c : SpdmContext) : Nat :=
  c.negotiate_info.dhe_sel.get_size

/-! ### Length-driven structures (src/spdmlib/src/msgs/spdm_codec.rs) -/

/-- Digest carrier: `data` models the fixed `[u8; SPDM_MAX_HASH_SIZE]` array. -/
structure SpdmDigestStruct where
  data_size : Nat
  data : List Byte
deriving DecidableEq

/-- Encoder writes the first `data_size` bytes of the array and nothing else. -/
def SpdmDigestStruct.spdm_encode (s : SpdmDigestStruct) : List Byte :=
  s.data.take s.data_size

/-- Decoder: `data_size` comes from the context's negotiated hash selection,
not from the wire; exactly that many bytes are consumed and the rest of the
fixed array stays zero. -/
def SpdmDigestStruct.spdm_read (c : SpdmContext) (l : List Byte) :
    Option (SpdmDigestStruct × List Byte) :=
  let data_size := c.get_hash_size
  match read_bytes data_size l with
  | none => none
  | some (ds, rest) =>
    some ({ data_size := data_size,
            data := ds ++ List.replicate (SPDM_MAX_HASH_SIZE - data_size) 0 }, rest)

structure SpdmSignatureStruct where
  data_size : Nat
  data : List Byte
deriving DecidableEq

def SpdmSignatureStruct.spdm_encode (s : SpdmSignatureStruct) : List Byte :=
  s.data.take s.data_size

def SpdmSignatureStruct.spdm_read (c : SpdmContext) (l : List Byte) :
    Option (SpdmSignatureStruct × List Byte) :=
  let data_size := c.get_asym_key_size
  match read_bytes data_size l with
  | none => none
  | some (ds, rest) =>
    some ({ data_size := data_size,
            data := ds ++ List.replicate (SPDM_MAX_ASYM_KEY_SIZE - data_size) 0 }, rest)

structure SpdmDheExchangeStruct where
  data_size : Nat
  data : List Byte
deriving DecidableEq

def SpdmDheExchangeStruct.spdm_encode (s : SpdmDheExchangeStruct) : List Byte :=
  s.data.take s.data_size

def SpdmDheExchangeStruct.spdm_read (c : SpdmContext) (l : List Byte) :
    Option (SpdmDheExchangeStruct × List Byte) :=
  let data_size := c.get_dhe_key_size
  match read_bytes data_size l with
  | none => none
  | some (ds, rest) =>
    some ({ data_size := data_size,
            data := ds ++ List.replicate (SPDM_MAX_DHE_KEY_SIZE - data_size) 0 }, rest)

/-! ### Certificate chain (src/spdmlib/src/msgs/spdm_codec.rs, SpdmCertChain) -/

/-- Modelled from the spec: the certificate-chain data capacity constant is a
compile-time tunable not listed among the provided sources; its exact value is
immaterial to the claims settled here. -/
def MAX_SPDM_CERT_CHAIN_DATA_SIZE : Nat := 1536

structure SpdmCertChainData where
  data_size : Nat
  data : List Byte
deriving DecidableEq

structure SpdmCertChain where
  root_hash : SpdmDigestStruct
  cert_chain : SpdmCertChainData
deriving DecidableEq

/-- Outcome of a decoder that can also hit a Rust runtime panic (an arithmetic
overflow with debug assertions enabled): `panic` for the aborted computation,
`fail` for the None decode result, `ok` for success. -/
inductive DecodeOutcome (α : Type) where
  | panic
  | fail
  | ok (val : α) (rest : List Byte)
deriving DecidableEq

/-- Decoder for the certificate chain.  The source computes
`length - 4 - root_hash.data_size` with unchecked u16 subtraction: when the
wire length field is smaller than 4 plus the negotiated hash size this
subtraction overflows, which is a panic under Rust debug assertions (and a
wrap-around to a huge size in release builds); the model reports it as
`panic`. -/
def SpdmCertChain.spdm_read (c : SpdmContext) (l : List Byte) :
    DecodeOutcome SpdmCertChain :=
  match u16_read l with
  | none => .fail
  | some (length, r1) =>
    match u16_read r1 with
    | none => .fail
    | some (_, r2) =>
      match SpdmDigestStruct.spdm_read c r2 with
      | none => .fail
      | some (root_hash, r3) =>
        if length < 4 + root_hash.data_size then .panic
        else
          let data_size := length - 4 - root_hash.data_size
          match read_bytes (min data_size MAX_SPDM_CERT_CHAIN_DATA_SIZE) r3 with
          | none => .fail
          | some (ds, rest) =>
            .ok { root_hash := root_hash,
                  cert_chain :=
                    { data_size := data_size,
                      data := ds ++ List.replicate
                        (MAX_SPDM_CERT_CHAIN_DATA_SIZE -
                          min data_size MAX_SPDM_CERT_CHAIN_DATA_SIZE) 0 } } rest

/-! ### DMTF measurement structures (src/spdmlib/src/msgs/spdm_codec.rs) -/

/-- Modelled from the spec: the measurement configuration constants; the spec
(section 6) gives MAX_SPDM_MEASUREMENT_BLOCK_COUNT = 8 and
MAX_SPDM_MEASUREMENT_VALUE_LEN = 64. -/
def MAX_SPDM_MEASUREMENT_BLOCK_COUNT : Nat := 8

def MAX_SPDM_MEASUREMENT_VALUE_LEN : Nat := 64

inductive SpdmDmtfMeasurementType where
  | SpdmDmtfMeasurementRom
  | SpdmDmtfMeasurementFirmware
  | SpdmDmtfMeasurementHardwareConfig
  | SpdmDmtfMeasurementFirmwareConfig
  | SpdmDmtfMeasurementManifest
  | Unknown (raw : Byte)
deriving DecidableEq

/-- The enumeration accessor the encoder calls; the values are forced by the
table the decoder in the source matches on (0 Rom, 1 Firmware,
2 HardwareConfig, 3 FirmwareConfig, 4 Manifest, raw otherwise). -/
def SpdmDmtfMeasurementType.get_u8 : SpdmDmtfMeasurementType → Byte
  | .SpdmDmtfMeasurementRom => 0
  | .SpdmDmtfMeasurementFirmware => 1
  | .SpdmDmtfMeasurementHardwareConfig => 2
  | .SpdmDmtfMeasurementFirmwareConfig => 3
  | .SpdmDmtfMeasurementManifest => 4
  | .Unknown raw => raw

inductive SpdmDmtfMeasurementRepresentation where
  | SpdmDmtfMeasurementDigest
  | SpdmDmtfMeasurementRawBit
  | Unknown (raw : Byte)
deriving DecidableEq

structure SpdmDmtfMeasurementStructure where
  type : SpdmDmtfMeasurementType
  representation : SpdmDmtfMeasurementRepresentation
  value_size : Nat
  value : List Byte
deriving DecidableEq

/-- Encoder as written in the source: both `type_value` and
`representation_value` are obtained from the same accessor of the type field
(the representation field is never consulted), and their sum is emitted.  The
u8 addition is modelled mod 256; it cannot overflow for the named variants. -/
def SpdmDmtfMeasurementStructure.spdm_encode
    (s : SpdmDmtfMeasurementStructure) : List Byte :=
  let type_value := s.type.get_u8
  let representation_value := s.type.get_u8
  let final_value := (type_value + representation_value) % 256
  final_value :: (u16_encode s.value_size ++ s.value.take s.value_size)

def SpdmDmtfMeasurementStructure.spdm_read (l : List Byte) :
    Option (SpdmDmtfMeasurementStructure × List Byte) :=
  match u8_read l with
  | none => none
  | some (final_value, r1) =>
    let type_value := final_value &&& 0x7f
    let representation_value := final_value &&& 0x80
    let type :=
      if type_value = 0 then SpdmDmtfMeasurementType.SpdmDmtfMeasurementRom
      else if type_value = 1 then .SpdmDmtfMeasurementFirmware
      else if type_value = 2 then .SpdmDmtfMeasurementHardwareConfig
      else if type_value = 3 then .SpdmDmtfMeasurementFirmwareConfig
      else if type_value = 4 then .SpdmDmtfMeasurementManifest
      else .Unknown type_value
    let representation :=
      if representation_value = 0 then
        SpdmDmtfMeasurementRepresentation.SpdmDmtfMeasurementDigest
      else if representation_value = 1 then .SpdmDmtfMeasurementRawBit
      else .Unknown representation_value
    match u16_read r1 with
    | none => none
    | some (value_size, r2) =>
      match read_bytes value_size r2 with
      | none => none
      | some (vs, rest) =>
        some ({ type := type, representation := representation,
                value_size := value_size,
                value := vs ++ List.replicate
                  (MAX_SPDM_MEASUREMENT_VALUE_LEN - value_size) 0 }, rest)

/-- Modelled from the spec: the measurement-specification bitflags type (only
the DMTF bit 0b1 is defined); its Codec read builds the flags with from_bits,
which rejects a byte carrying any undefined bit. -/
def SpdmMeasurementSpecification_read (l : List Byte) :
    Option (Nat × List Byte) :=
  match u8_read l with
  | none => none
  | some (v, r) => if v ≤ 1 then some (v, r) else none

structure SpdmMeasurementBlockStructure where
  index : Byte
  measurement_specification : Nat
  measurement_size : Nat
  measurement : SpdmDmtfMeasurementStructure
deriving DecidableEq

def SpdmMeasurementBlockStructure.default_block : SpdmMeasurementBlockStructure :=
  { index := 0, measurement_specification := 0, measurement_size := 0,
    measurement :=
      { type := .SpdmDmtfMeasurementRom,
        representation := .SpdmDmtfMeasurementDigest,
        value_size := 0,
        value := List.replicate MAX_SPDM_MEASUREMENT_VALUE_LEN 0 } }

def SpdmMeasurementBlockStructure.spdm_encode
    (s : SpdmMeasurementBlockStructure) : List Byte :=
  s.index :: s.measurement_specification ::
    (u16_encode s.measurement_size ++ s.measurement.spdm_encode)

def SpdmMeasurementBlockStructure.spdm_read (l : List Byte) :
    Option (SpdmMeasurementBlockStructure × List Byte) :=
  match u8_read l with
  | none => none
  | some (index, r1) =>
    match SpdmMeasurementSpecification_read r1 with
    | none => none
    | some (measurement_specification, r2) =>
      match u16_read r2 with
      | none => none
      | some (measurement_size, r3) =>
        match SpdmDmtfMeasurementStructure.spdm_read r3 with
        | none => none
        | some (measurement, rest) =>
          some ({ index := index,
                  measurement_specification := measurement_specification,
                  measurement_size := measurement_size,
                  measurement := measurement }, rest)

/-- Read `n` consecutive measurement blocks, the shape of the decoder loop. -/
def read_blocks : Nat → List Byte → Option (List SpdmMeasurementBlockStructure × List Byte)
  | 0, l => some ([], l)
  | n + 1, l =>
    match SpdmMeasurementBlockStructure.spdm_read l with
    | none => none
    | some (b, r) =>
      match read_blocks n r with
      | none => none
      | some (bs, rest) => some (b :: bs, rest)

structure SpdmMeasurementRecordStructure where
  number_of_blocks : Byte
  record : List SpdmMeasurementBlockStructure
deriving DecidableEq

/-- Encoder: byte count of blocks, then the u24 record length computed by the
accumulating loop, then the blocks.  The source panics when a block violates
the size invariant; the model returns none for that panic. -/
def SpdmMeasurementRecordStructure.spdm_encode
    (s : SpdmMeasurementRecordStructure) : Option (List Byte) :=
  let blocks := s.record.take s.number_of_blocks
  if blocks.all (fun d => d.measurement_size = d.measurement.value_size + 3) then
    let calc_length := blocks.foldl (fun acc d => acc + (d.measurement_size + 4)) 0
    some (s.number_of_blocks ::
      (u24_encode calc_length ++ (blocks.map (fun d => d.spdm_encode)).flatten))
  else
    none

/-- Decoder: reads the count and the u24 record length, then at most
MAX_SPDM_MEASUREMENT_BLOCK_COUNT blocks (the iteration runs over the fixed
record array), then re-checks the per-block size invariant and that the
accumulated length equals the wire record length, rejecting on mismatch. -/
def SpdmMeasurementRecordStructure.spdm_read (l : List Byte) :
    Option (SpdmMeasurementRecordStructure × List Byte) :=
  match u8_read l with
  | none => none
  | some (number_of_blocks, r1) =>
    match u24_read r1 with
    | none => none
    | some (record_length, r2) =>
      match read_blocks (min number_of_blocks MAX_SPDM_MEASUREMENT_BLOCK_COUNT) r2 with
      | none => none
      | some (bs, rest) =>
        let record := bs ++ List.replicate
          (MAX_SPDM_MEASUREMENT_BLOCK_COUNT - bs.length)
          SpdmMeasurementBlockStructure.default_block
        let checked := record.take number_of_blocks
        if checked.all (fun d => d.measurement_size = d.measurement.value_size + 3) then
          if checked.foldl (fun acc d => acc + (d.measurement_size + 4)) 0
              = record_length then
            some ({ number_of_blocks := number_of_blocks, record := record }, rest)
          else none
        else none

/-! ### Error frame (src/spdmlib/src/cmds/error.rs) -/

inductive SpdmErrorCode where
  | SpdmErrorInvalidRequest
  | SpdmErrorInvalidSession
  | SpdmErrorBusy
  | SpdmErrorUnexpectedRequest
  | SpdmErrorUnspecified
  | SpdmErrorDecryptError
  | SpdmErrorUnsupportedRequest
  | SpdmErrorRequestInFlight
  | SpdmErrorInvalidResponseCode
  | SpdmErrorSessionLimitExceeded
  | SpdmErrorMajorVersionMismatch
  | SpdmErrorResponseNotReady
  | SpdmErrorRequestResynch
  | SpdmErrorVendorDefined
  | Unknown (raw : Byte)
deriving DecidableEq

/-- The byte-to-variant table generated by enum_builder for SpdmErrorCode;
an unrecognised byte becomes the Unknown arm, never a decode failure. -/
def SpdmErrorCode.ofU8 (b : Byte) : SpdmErrorCode :=
  if b = 0x1 then .SpdmErrorInvalidRequest
  else if b = 0x2 then .SpdmErrorInvalidSession
  else if b = 0x3 then .SpdmErrorBusy
  else if b = 0x4 then .SpdmErrorUnexpectedRequest
  else if b = 0x5 then .SpdmErrorUnspecified
  else if b = 0x6 then .SpdmErrorDecryptError
  else if b = 0x7 then .SpdmErrorUnsupportedRequest
  else if b = 0x8 then .SpdmErrorRequestInFlight
  else if b = 0x9 then .SpdmErrorInvalidResponseCode
  else if b = 0xA then .SpdmErrorSessionLimitExceeded
  else if b = 0x41 then .SpdmErrorMajorVersionMismatch
  else if b = 0x42 then .SpdmErrorResponseNotReady
  else if b = 0x43 then .SpdmErrorRequestResynch
  else if b = 0xFF then .SpdmErrorVendorDefined
  else .Unknown b

def SpdmErrorCode.read (l : List Byte) : Option (SpdmErrorCode × List Byte) :=
  match u8_read l with
  | none => none
  | some (b, r) => some (SpdmErrorCode.ofU8 b, r)

structure SpdmErrorResponseNoneExtData where
deriving DecidableEq

def SpdmErrorResponseNoneExtData.spdm_read (l : List Byte) :
    Option (SpdmErrorResponseNoneExtData × List Byte) :=
  some ({}, l)

structure SpdmErrorResponseNotReadyExtData where
  rdt_exponent : Byte
  request_code : Byte
  token : Byte
  tdtm : Byte
deriving DecidableEq

def SpdmErrorResponseNotReadyExtData.spdm_read (l : List Byte) :
    Option (SpdmErrorResponseNotReadyExtData × List Byte) :=
  match u8_read l with
  | none => none
  | some (rdt_exponent, r1) =>
    match u8_read r1 with
    | none => none
    | some (request_code, r2) =>
      match u8_read r2 with
      | none => none
      | some (token, r3) =>
        match u8_read r3 with
        | none => none
        | some (tdtm, rest) =>
          some ({ rdt_exponent := rdt_exponent, request_code := request_code,
                  token := token, tdtm := tdtm }, rest)

structure SpdmErrorResponseVendorExtData where
  data_size : Nat
  data : List Byte
deriving DecidableEq

/-- The read loop of the vendor extended data: it walks the 32 slots of the
fixed array, copying a byte per slot and counting it, and breaks as soon as
the reader is exhausted.  Returns the count, the copied bytes and the
remaining input. -/
def vendor_read_loop : Nat → List Byte → Nat × List Byte × List Byte
  | 0, l => (0, [], l)
  | _ + 1, [] => (0, [], [])
  | n + 1, b :: r =>
    let (c, ds, rest) := vendor_read_loop n r
    (c + 1, b :: ds, rest)

def SpdmErrorResponseVendorExtData.spdm_read (l : List Byte) :
    Option (SpdmErrorResponseVendorExtData × List Byte) :=
  let (data_size, ds, rest) := vendor_read_loop 32 l
  some ({ data_size := data_size,
          data := ds ++ List.replicate (32 - data_size) 0 }, rest)

inductive SpdmErrorResponseExtData where
  | SpdmErrorExtDataNone (d : SpdmErrorResponseNoneExtData)
  | SpdmErrorExtDataNotReady (d : SpdmErrorResponseNotReadyExtData)
  | SpdmErrorExtDataVendorDefined (d : SpdmErrorResponseVendorExtData)
deriving DecidableEq

structure SpdmErrorResponsePayload where
  error_code : SpdmErrorCode
  error_data : Byte
  extended_data : SpdmErrorResponseExtData
deriving DecidableEq

def SpdmErrorResponsePayload.spdm_read (l : List Byte) :
    Option (SpdmErrorResponsePayload × List Byte) :=
  match SpdmErrorCode.read l with
  | none => none
  | some (error_code, r1) =>
    match u8_read r1 with
    | none => none
    | some (error_data, r2) =>
      let extended_data :=
        match error_code with
        | .SpdmErrorResponseNotReady =>
          match SpdmErrorResponseNotReadyExtData.spdm_read r2 with
          | none => none
          | some (d, rest) =>
            some (SpdmErrorResponseExtData.SpdmErrorExtDataNotReady d, rest)
        | .SpdmErrorVendorDefined =>
          match SpdmErrorResponseVendorExtData.spdm_read r2 with
          | none => none
          | some (d, rest) =>
            some (SpdmErrorResponseExtData.SpdmErrorExtDataVendorDefined d, rest)
        | _ =>
          match SpdmErrorResponseNoneExtData.spdm_read r2 with
          | none => none
          | some (d, rest) =>
            some (SpdmErrorResponseExtData.SpdmErrorExtDataNone d, rest)
      match extended_data with
      | none => none
      | some (extended_data, rest) =>
        some ({ error_code := error_code, error_data := error_data,
                extended_data := extended_data }, rest)

/-! ### Crypto capability registry (src/spdmlib/src/crypto/mod.rs)

Each registry entry is a process-wide once cell; its state is modelled as an
Option holding the installed provider.  try_init_once installs the value only
when the cell is empty and reports whether installation happened;
try_get_or_init installs the value when the cell is empty and otherwise keeps
and returns the existing value, reporting success in both cases. -/

def try_init_once {α : Type} (cell : Option α) (v : α) : Bool × Option α :=
  match cell with
  | none => (true, some v)
  | some w => (false, some w)

def try_get_or_init {α : Type} (cell : Option α) (v : α) : Bool × Option α :=
  match cell with
  | none => (true, some v)
  | some w => (true, some w)

def crypto_hash_register {α : Type} (cell : Option α) (v : α) : Bool × Option α :=
  try_init_once cell v

def crypto_hmac_register {α : Type} (cell : Option α) (v : α) : Bool × Option α :=
  try_init_once cell v

def crypto_aead_register {α : Type} (cell : Option α) (v : α) : Bool × Option α :=
  try_init_once cell v

def crypto_asym_sign_register {α : Type} (cell : Option α) (v : α) : Bool × Option α :=
  try_init_once cell v

/-- The one registry that differs: the source's asym_verify::register calls
try_get_or_init instead of try_init_once. -/
def crypto_asym_verify_register {α : Type} (cell : Option α) (v : α) : Bool × Option α :=
  try_get_or_init cell v

def crypto_dhe_register {α : Type} (cell : Option α) (v : α) : Bool × Option α :=
  try_init_once cell v

def crypto_cert_operation_register {α : Type} (cell : Option α) (v : α) : Bool × Option α :=
  try_init_once cell v

def crypto_hkdf_register {α : Type} (cell : Option α) (v : α) : Bool × Option α :=
  try_init_once cell v

/-! ### Session pool and transcript buffer

Modelled from the spec where noted: the session type, the pool accessors and
the ManagedBuffer live in src/spdmlib/src/common and src/spdmlib/src/session
which are not among the provided sources.  The spec (sections 3 and 4.4)
describes a fixed pool of four slots allocated by first free slot, setup
assigning the session id, teardown zeroing the slot, and append-only bounded
transcript buffers whose append fails when capacity would be exceeded.  Only
the session fields the provided handlers touch are modelled; the key-schedule
secrets and crypto parameters are not the subject of any claim and are
elided. -/

inductive SpdmSessionState where
  | SpdmSessionNotStarted
  | SpdmSessionHandshaking
  | SpdmSessionEstablished
deriving DecidableEq

structure SpdmSession where
  session_id : Nat
  session_state : SpdmSessionState
  use_psk : Bool
  dhe_secret : List Byte
  message_k : List Byte
deriving DecidableEq

def default_session : SpdmSession :=
  { session_id := 0, session_state := .SpdmSessionNotStarted, use_psk := false,
    dhe_secret := [], message_k := [] }

/-- Modelled from the spec: allocation picks the first slot that is not in
use (session id still the invalid id 0); the source keeps the accessor name
with its spelling. -/
def get_next_avaiable_session : List SpdmSession → Option Nat
  | [] => none
  | s :: rest =>
    if s.session_id = 0 then some 0
    else (get_next_avaiable_session rest).map (· + 1)

/-- Modelled from the spec: lookup of the slot holding a given session id. -/
def get_session_via_id : List SpdmSession → Nat → Option Nat
  | [], _ => none
  | s :: rest, sid =>
    if s.session_id = sid then some 0
    else (get_session_via_id rest sid).map (· + 1)

/-- Apply an update to the slot found via id, failing when no slot holds the
id (which the handlers turn into an unwrap panic). -/
def update_session_via_id (l : List SpdmSession) (sid : Nat)
    (f : SpdmSession → SpdmSession) : Option (List SpdmSession) :=
  match get_session_via_id l sid with
  | none => none
  | some j => some (l.set j (f (l.getD j default_session)))

/-- Modelled from the spec: the transcript buffer capacity constant
MAX_SPDM_MESSAGE_BUFFER_SIZE, a compile-time tunable. -/
def MAX_SPDM_MESSAGE_BUFFER_SIZE : Nat := 1024

/-- ManagedBuffer append: all-or-nothing, failing when the capacity would be
exceeded. -/
def append_message (buf data : List Byte) : Option (List Byte) :=
  if buf.length + data.length ≤ MAX_SPDM_MESSAGE_BUFFER_SIZE then
    some (buf ++ data)
  else none

/-! ### Responder handlers (src/spdmlib/src/responder)

The handlers orchestrate codec, crypto and session state.  The crypto and
transcript helpers they call (payload decode, DHE key generation, signature,
transcript hash, HMAC) live outside the provided sources and are abstracted
as an environment of already-computed results; the control flow, the error
frames, the transcript appends, the session mutations and all the arithmetic
are transcribed from the source.  A returned none models a Rust panic (a
failed unwrap, an out-of-range subtraction, or a copy_from_slice length
mismatch while patching the trailing signature and HMAC regions). -/

inductive ResponderMsg where
  | errorFrame (error_code : SpdmErrorCode) (error_data : Byte)
  | response (bytes : List Byte)
deriving DecidableEq

inductive SpdmMeasurementSummaryHashType where
  | SpdmMeasurementSummaryHashTypeNone
  | SpdmMeasurementSummaryHashTypeTcb
  | SpdmMeasurementSummaryHashTypeAll
  | Unknown (raw : Byte)
deriving DecidableEq

/-- The test both handlers run on the request's summary-hash type to set the
need_measurement_summary_hash runtime flag. -/
def need_meas_summary : SpdmMeasurementSummaryHashType → Bool
  | .SpdmMeasurementSummaryHashTypeTcb => true
  | .SpdmMeasurementSummaryHashTypeAll => true
  | _ => false

/-- The fields of the KeyExchange request payload the handler consults. -/
structure SpdmKeyExchangeRequestPayload where
  measurement_summary_hash_type : SpdmMeasurementSummaryHashType
  req_session_id : Nat
  exchange : List Byte
deriving DecidableEq

structure SpdmPskExchangeRequestPayload where
  measurement_summary_hash_type : SpdmMeasurementSummaryHashType
  req_session_id : Nat
deriving DecidableEq

structure ResponderState where
  common : SpdmContext
  sessions : List SpdmSession
  need_measurement_summary_hash : Bool
deriving DecidableEq

/-- Results of the helpers handle_spdm_key_exchange calls, in call order. -/
structure KeyExchangeEnv where
  req : Option SpdmKeyExchangeRequestPayload
  reader_used : Nat
  exchange : Option (List Byte)
  final_key : Option (List Byte)
  encoded_response : List Byte
  signature : Option (List Byte)
  th1 : Option (List Byte)
  transcript_data : Option (List Byte)
  hmac : Option (List Byte)
deriving DecidableEq

def handle_spdm_key_exchange (env : KeyExchangeEnv) (st : ResponderState)
    (bytes : List Byte) : Option (ResponderState × List ResponderMsg) :=
  match env.req with
  | none => some (st, [.errorFrame .SpdmErrorInvalidRequest 0])
  | some key_exchange_req =>
    let need := need_meas_summary key_exchange_req.measurement_summary_hash_type
    let st := { st with need_measurement_summary_hash := need }
    match env.exchange with
    | none => none
    | some _exchange =>
      match env.final_key with
      | none => none
      | some final_key =>
        let rsp_session_id : Nat := 0xFFFE
        let used := env.encoded_response.length
        let base_asym_size := st.common.get_asym_key_size
        let base_hash_size := st.common.get_hash_size
        match append_message [] (bytes.take env.reader_used) with
        | none => some (st, [.errorFrame .SpdmErrorInvalidRequest 0])
        | some message_k1 =>
          if used < base_asym_size + base_hash_size then none
          else
            let temp_used := used - base_asym_size - base_hash_size
            match append_message message_k1 (env.encoded_response.take temp_used) with
            | none => some (st, [.errorFrame .SpdmErrorInvalidRequest 0])
            | some message_k2 =>
              match env.signature with
              | none => some (st, [.errorFrame .SpdmErrorInvalidRequest 0])
              | some signature =>
                match append_message message_k2 signature with
                | none => some (st, [.errorFrame .SpdmErrorInvalidRequest 0])
                | some message_k3 =>
                  match env.th1 with
                  | none => some (st, [.errorFrame .SpdmErrorInvalidRequest 0])
                  | some _th1 =>
                    match get_next_avaiable_session st.sessions with
                    | none => some (st, [.errorFrame .SpdmErrorInvalidRequest 0])
                    | some idx =>
                      let session_id :=
                        key_exchange_req.req_session_id * 65536 + rsp_session_id
                      let slot : SpdmSession :=
                        { default_session with
                          session_id := session_id
                          use_psk := false
                          dhe_secret := final_key }
                      let st := { st with sessions := st.sessions.set idx slot }
                      match env.transcript_data with
                      | none => some (st, [.errorFrame .SpdmErrorInvalidRequest 0])
                      | some _transcript_data =>
                        match get_session_via_id st.sessions session_id with
                        | none => none
                        | some _j =>
                          match env.hmac with
                          | none =>
                            match update_session_via_id st.sessions session_id
                                (fun _ => default_session) with
                            | none => none
                            | some sessions2 =>
                              some ({ st with sessions := sessions2 },
                                [.errorFrame .SpdmErrorInvalidRequest 0])
                          | some hmac =>
                            match append_message message_k3 hmac with
                            | none =>
                              match update_session_via_id st.sessions session_id
                                  (fun _ => default_session) with
                              | none => none
                              | some sessions2 =>
                                some ({ st with sessions := sessions2 },
                                  [.errorFrame .SpdmErrorInvalidRequest 0])
                            | some message_k4 =>
                              match update_session_via_id st.sessions session_id
                                  (fun s => { s with message_k := message_k4 }) with
                              | none => none
                              | some sessions2 =>
                                let st := { st with sessions := sessions2 }
                                if signature.length = base_asym_size ∧
                                    hmac.length = base_hash_size then
                                  let send_buffer :=
                                    env.encoded_response.take
                                      (used - base_hash_size - base_asym_size) ++
                                      signature ++ hmac
                                  match update_session_via_id st.sessions session_id
                                      (fun s => { s with session_state :=
                                        .SpdmSessionHandshaking }) with
                                  | none => none
                                  | some sessions3 =>
                                    some ({ st with sessions := sessions3 },
                                      [.response send_buffer])
                                else none

/-- The PSK bytes the PSK handler installs as the session secret. -/
def TestPskData : List Byte :=
  [84, 101, 115, 116, 80, 115, 107, 68, 97, 116, 97, 0]

/-- Results of the helpers handle_spdm_psk_exchange calls, in call order. -/
structure PskExchangeEnv where
  req : Option SpdmPskExchangeRequestPayload
  reader_used : Nat
  encoded_response : List Byte
  th1 : Option (List Byte)
  transcript_data : Option (List Byte)
  hmac : Option (List Byte)
deriving DecidableEq

def handle_spdm_psk_exchange (env : PskExchangeEnv) (st : ResponderState)
    (bytes : List Byte) : Option (ResponderState × List ResponderMsg) :=
  match env.req with
  | none => some (st, [.errorFrame .SpdmErrorInvalidRequest 0])
  | some psk_exchange_req =>
    let need := need_meas_summary psk_exchange_req.measurement_summary_hash_type
    let st := { st with need_measurement_summary_hash := need }
    let rsp_session_id : Nat := 0xFFFD
    let used := env.encoded_response.length
    let base_hash_size := st.common.get_hash_size
    match append_message [] (bytes.take env.reader_used) with
    | none => some (st, [.errorFrame .SpdmErrorInvalidRequest 0])
    | some message_k1 =>
      if used < base_hash_size then none
      else
        let temp_used := used - base_hash_size
        match append_message message_k1 (env.encoded_response.take temp_used) with
        | none => some (st, [.errorFrame .SpdmErrorInvalidRequest 0])
        | some message_k2 =>
          match env.th1 with
          | none => some (st, [.errorFrame .SpdmErrorInvalidRequest 0])
          | some _th1 =>
            match get_next_avaiable_session st.sessions with
            | none => some (st, [.errorFrame .SpdmErrorInvalidRequest 0])
            | some idx =>
              let session_id :=
                psk_exchange_req.req_session_id * 65536 + rsp_session_id
              let slot : SpdmSession :=
                { default_session with
                  session_id := session_id
                  use_psk := true
                  dhe_secret := TestPskData }
              let st := { st with sessions := st.sessions.set idx slot }
              match env.transcript_data with
              | none => some (st, [.errorFrame .SpdmErrorInvalidRequest 0])
              | some _transcript_data =>
                match get_session_via_id st.sessions session_id with
                | none => none
                | some _j =>
                  match env.hmac with
                  | none =>
                    match update_session_via_id st.sessions session_id
                        (fun _ => default_session) with
                    | none => none
                    | some sessions2 =>
                      some ({ st with sessions := sessions2 },
                        [.errorFrame .SpdmErrorInvalidRequest 0])
                  | some hmac =>
                    match append_message message_k2 hmac with
                    | none =>
                      match update_session_via_id st.sessions session_id
                          (fun _ => default_session) with
                      | none => none
                      | some sessions2 =>
                        some ({ st with sessions := sessions2 },
                          [.errorFrame .SpdmErrorInvalidRequest 0])
                    | some message_k3 =>
                      match update_session_via_id st.sessions session_id
                          (fun s => { s with message_k := message_k3 }) with
                      | none => none
                      | some sessions2 =>
                        let st := { st with sessions := sessions2 }
                        if hmac.length = base_hash_size then
                          let send_buffer :=
                            env.encoded_response.take (used - base_hash_size) ++ hmac
                          match update_session_via_id st.sessions session_id
                              (fun s => { s with session_state :=
                                .SpdmSessionHandshaking }) with
                          | none => none
                          | some sessions3 =>
                            some ({ st with sessions := sessions3 },
                              [.response send_buffer])
                        else none

/-! ### Message header and Responder dispatch (src/spdmlib/src/responder/context.rs) -/

inductive SpdmVersion where
  | SpdmVersion10
  | SpdmVersion11
  | Unknown (raw : Byte)
deriving DecidableEq

def SpdmVersion.ofU8 (b : Byte) : SpdmVersion :=
  if b = 0x10 then .SpdmVersion10
  else if b = 0x11 then .SpdmVersion11
  else .Unknown b

inductive SpdmResponseResponseCode where
  | SpdmRequestGetVersion
  | SpdmRequestGetCapabilities
  | SpdmRequestNegotiateAlgorithms
  | SpdmRequestGetDigests
  | SpdmRequestGetCertificate
  | SpdmRequestChallenge
  | SpdmRequestGetMeasurements
  | SpdmRequestKeyExchange
  | SpdmRequestFinish
  | SpdmRequestPskExchange
  | SpdmRequestPskFinish
  | SpdmRequestHeartbeat
  | SpdmRequestKeyUpdate
  | SpdmRequestEndSession
  | SpdmResponseDigests
  | SpdmResponseCertificate
  | SpdmResponseChallengeAuth
  | SpdmResponseVersion
  | SpdmResponseMeasurements
  | SpdmResponseCapabilities
  | SpdmResponseAlgorithms
  | SpdmResponseKeyExchangeRsp
  | SpdmResponseFinishRsp
  | SpdmResponsePskExchangeRsp
  | SpdmResponsePskFinishRsp
  | SpdmResponseHeartbeatAck
  | SpdmResponseKeyUpdateAck
  | SpdmResponseEndSessionAck
  | SpdmResponseError
  | Unknown (raw : Byte)
deriving DecidableEq

/-- Modelled from the spec: the byte values of the request and response codes
follow the SPDM wire format (the enum lives in a source file that is not
provided); an unrecognised byte decodes as Unknown, never as a failure. -/
def SpdmResponseResponseCode.ofU8 (b : Byte) : SpdmResponseResponseCode :=
  if b = 0x84 then .SpdmRequestGetVersion
  else if b = 0xE1 then .SpdmRequestGetCapabilities
  else if b = 0xE3 then .SpdmRequestNegotiateAlgorithms
  else if b = 0x81 then .SpdmRequestGetDigests
  else if b = 0x82 then .SpdmRequestGetCertificate
  else if b = 0x83 then .SpdmRequestChallenge
  else if b = 0xE0 then .SpdmRequestGetMeasurements
  else if b = 0xE4 then .SpdmRequestKeyExchange
  else if b = 0xE5 then .SpdmRequestFinish
  else if b = 0xE6 then .SpdmRequestPskExchange
  else if b = 0xE7 then .SpdmRequestPskFinish
  else if b = 0xE8 then .SpdmRequestHeartbeat
  else if b = 0xE9 then .SpdmRequestKeyUpdate
  else if b = 0xEC then .SpdmRequestEndSession
  else if b = 0x01 then .SpdmResponseDigests
  else if b = 0x02 then .SpdmResponseCertificate
  else if b = 0x03 then .SpdmResponseChallengeAuth
  else if b = 0x04 then .SpdmResponseVersion
  else if b = 0x60 then .SpdmResponseMeasurements
  else if b = 0x61 then .SpdmResponseCapabilities
  else if b = 0x63 then .SpdmResponseAlgorithms
  else if b = 0x64 then .SpdmResponseKeyExchangeRsp
  else if b = 0x65 then .SpdmResponseFinishRsp
  else if b = 0x66 then .SpdmResponsePskExchangeRsp
  else if b = 0x67 then .SpdmResponsePskFinishRsp
  else if b = 0x68 then .SpdmResponseHeartbeatAck
  else if b = 0x69 then .SpdmResponseKeyUpdateAck
  else if b = 0x6C then .SpdmResponseEndSessionAck
  else if b = 0x7F then .SpdmResponseError
  else .Unknown b

structure SpdmMessageHeader where
  version : SpdmVersion
  request_response_code : SpdmResponseResponseCode
deriving DecidableEq

def SpdmMessageHeader.read (l : List Byte) :
    Option (SpdmMessageHeader × List Byte) :=
  match u8_read l with
  | none => none
  | some (v, r1) =>
    match u8_read r1 with
    | none => none
    | some (c, rest) =>
      some ({ version := SpdmVersion.ofU8 v,
              request_response_code := SpdmResponseResponseCode.ofU8 c }, rest)

/-- The messages each secured-path handler would emit; the dispatchers only
forward to a handler, so the handlers are abstracted as their outputs. -/
structure SecuredDispatchEnv where
  finish_out : List ResponderMsg
  psk_finish_out : List ResponderMsg
  heartbeat_out : List ResponderMsg
  key_update_out : List ResponderMsg
  end_session_out : List ResponderMsg
deriving DecidableEq

/-- dispatch_secured_message: the secured-path dispatch table.  An arm that
matches returns true after running its handler; every other arm returns
false and runs nothing, emitting no message at all. -/
def dispatch_secured_message (env : SecuredDispatchEnv) (bytes : List Byte) :
    Bool × List ResponderMsg :=
  match SpdmMessageHeader.read bytes with
  | none => (false, [])
  | some (message_header, _) =>
    match message_header.request_response_code with
    | .SpdmRequestGetVersion => (false, [])
    | .SpdmRequestGetCapabilities => (false, [])
    | .SpdmRequestNegotiateAlgorithms => (false, [])
    | .SpdmRequestGetDigests => (false, [])
    | .SpdmRequestGetCertificate => (false, [])
    | .SpdmRequestChallenge => (false, [])
    | .SpdmRequestGetMeasurements => (false, [])
    | .SpdmRequestKeyExchange => (false, [])
    | .SpdmRequestFinish => (true, env.finish_out)
    | .SpdmRequestPskExchange => (false, [])
    | .SpdmRequestPskFinish => (true, env.psk_finish_out)
    | .SpdmRequestHeartbeat => (true, env.heartbeat_out)
    | .SpdmRequestKeyUpdate => (true, env.key_update_out)
    | .SpdmRequestEndSession => (true, env.end_session_out)
    | .SpdmResponseDigests => (false, [])
    | .SpdmResponseCertificate => (false, [])
    | .SpdmResponseChallengeAuth => (false, [])
    | .SpdmResponseVersion => (false, [])
    | .SpdmResponseMeasurements => (false, [])
    | .SpdmResponseCapabilities => (false, [])
    | .SpdmResponseAlgorithms => (false, [])
    | .SpdmResponseKeyExchangeRsp => (false, [])
    | .SpdmResponseFinishRsp => (false, [])
    | .SpdmResponsePskExchangeRsp => (false, [])
    | .SpdmResponsePskFinishRsp => (false, [])
    | .SpdmResponseHeartbeatAck => (false, [])
    | .SpdmResponseKeyUpdateAck => (false, [])
    | .SpdmResponseEndSessionAck => (false, [])
    | .SpdmResponseError => (false, [])
    | .Unknown _ => (false, [])

/-- The messages each unsecured-path handler would emit. -/
structure DispatchEnv where
  version_out : List ResponderMsg
  capability_out : List ResponderMsg
  algorithm_out : List ResponderMsg
  digest_out : List ResponderMsg
  certificate_out : List ResponderMsg
  challenge_out : List ResponderMsg
  measurement_out : List ResponderMsg
  key_exchange_out : List ResponderMsg
  psk_exchange_out : List ResponderMsg
deriving DecidableEq

/-- dispatch_message: the unsecured-path dispatch table. -/
def dispatch_message (env : DispatchEnv) (bytes : List Byte) :
    Bool × List ResponderMsg :=
  match SpdmMessageHeader.read bytes with
  | none => (false, [])
  | some (message_header, _) =>
    match message_header.request_response_code with
    | .SpdmRequestGetVersion => (true, env.version_out)
    | .SpdmRequestGetCapabilities => (true, env.capability_out)
    | .SpdmRequestNegotiateAlgorithms => (true, env.algorithm_out)
    | .SpdmRequestGetDigests => (true, env.digest_out)
    | .SpdmRequestGetCertificate => (true, env.certificate_out)
    | .SpdmRequestChallenge => (true, env.challenge_out)
    | .SpdmRequestGetMeasurements => (true, env.measurement_out)
    | .SpdmRequestKeyExchange => (true, env.key_exchange_out)
    | .SpdmRequestFinish => (false, [])
    | .SpdmRequestPskExchange => (true, env.psk_exchange_out)
    | .SpdmRequestPskFinish => (false, [])
    | .SpdmRequestHeartbeat => (false, [])
    | .SpdmRequestKeyUpdate => (false, [])
    | .SpdmRequestEndSession => (false, [])
    | .SpdmResponseDigests => (false, [])
    | .SpdmResponseCertificate => (false, [])
    | .SpdmResponseChallengeAuth => (false, [])
    | .SpdmResponseVersion => (false, [])
    | .SpdmResponseMeasurements => (false, [])
    | .SpdmResponseCapabilities => (false, [])
    | .SpdmResponseAlgorithms => (false, [])
    | .SpdmResponseKeyExchangeRsp => (false, [])
    | .SpdmResponseFinishRsp => (false, [])
    | .SpdmResponsePskExchangeRsp => (false, [])
    | .SpdmResponsePskFinishRsp => (false, [])
    | .SpdmResponseHeartbeatAck => (false, [])
    | .SpdmResponseKeyUpdateAck => (false, [])
    | .SpdmResponseEndSessionAck => (false, [])
    | .SpdmResponseError => (false, [])
    | .Unknown _ => (false, [])

/-- The secured-path dispatch table as a predicate: the codes that have a
handler on that path. -/
def secured_table : SpdmResponseResponseCode → Bool
  | .SpdmRequestFinish => true
  | .SpdmRequestPskFinish => true
  | .SpdmRequestHeartbeat => true
  | .SpdmRequestKeyUpdate => true
  | .SpdmRequestEndSession => true
  | _ => false

/-- The unsecured-path dispatch table as a predicate. -/
def unsecured_table : SpdmResponseResponseCode → Bool
  | .SpdmRequestGetVersion => true
  | .SpdmRequestGetCapabilities => true
  | .SpdmRequestNegotiateAlgorithms => true
  | .SpdmRequestGetDigests => true
  | .SpdmRequestGetCertificate => true
  | .SpdmRequestChallenge => true
  | .SpdmRequestGetMeasurements => true
  | .SpdmRequestKeyExchange => true
  | .SpdmRequestPskExchange => true
  | _ => false

/-! ### Concrete instances used to evaluate the definitions -/

def ctxSha256P256 : SpdmContext :=
  { negotiate_info :=
    { base_hash_sel := .TPM_ALG_SHA_256
      base_asym_sel := .TPM_ALG_ECDSA_ECC_NIST_P256
      dhe_sel := .SECP_256_R1 } }

def ctxSha256 : SpdmContext :=
  { negotiate_info :=
    { base_hash_sel := .TPM_ALG_SHA_256
      base_asym_sel := .unset
      dhe_sel := .unset } }

def ctxUnset : SpdmContext :=
  { negotiate_info :=
    { base_hash_sel := .unset
      base_asym_sel := .unset
      dhe_sel := .unset } }

/-- A DMTF measurement instance with distinct type and representation
information: type Firmware, representation Digest, empty value. -/
def dmtfP0 : SpdmDmtfMeasurementStructure :=
  { type := .SpdmDmtfMeasurementFirmware
    representation := .SpdmDmtfMeasurementDigest
    value_size := 0
    value := List.replicate MAX_SPDM_MEASUREMENT_VALUE_LEN 0 }

def digestW : SpdmDigestStruct :=
  { data_size := 32, data := List.replicate SPDM_MAX_HASH_SIZE 0 }

def signatureW : SpdmSignatureStruct :=
  { data_size := 64, data := List.replicate SPDM_MAX_ASYM_KEY_SIZE 0 }

def dheW : SpdmDheExchangeStruct :=
  { data_size := 64, data := List.replicate SPDM_MAX_DHE_KEY_SIZE 0 }

def env0S : SecuredDispatchEnv :=
  { finish_out := [], psk_finish_out := [], heartbeat_out := []
    key_update_out := [], end_session_out := [] }

def env0U : DispatchEnv :=
  { version_out := [], capability_out := [], algorithm_out := []
    digest_out := [], certificate_out := [], challenge_out := []
    measurement_out := [], key_exchange_out := [], psk_exchange_out := [] }

/-- A pool whose four slots are all in use. -/
def full_pool : List SpdmSession :=
  List.replicate 4 { default_session with session_id := 1 }

/-- A pool of four free slots. -/
def free_pool : List SpdmSession :=
  [default_session, default_session, default_session, default_session]

def keReqW : SpdmKeyExchangeRequestPayload :=
  { measurement_summary_hash_type := .SpdmMeasurementSummaryHashTypeNone
    req_session_id := 5
    exchange := [] }

def keEnvW : KeyExchangeEnv :=
  { req := some keReqW, reader_used := 0, exchange := some []
    final_key := some [], encoded_response := [], signature := some []
    th1 := some [], transcript_data := some [], hmac := some [] }

def pskReqW : SpdmPskExchangeRequestPayload :=
  { measurement_summary_hash_type := .SpdmMeasurementSummaryHashTypeNone
    req_session_id := 5 }

def pskEnvW : PskExchangeEnv :=
  { req := some pskReqW, reader_used := 0, encoded_response := []
    th1 := some [], transcript_data := some [], hmac := some [] }

/-- A well-formed measurement block: empty value, so measurement_size 3. -/
def blockW : SpdmMeasurementBlockStructure :=
  { index := 0
    measurement_specification := 1
    measurement_size := 3
    measurement :=
      { type := .SpdmDmtfMeasurementRom
        representation := .SpdmDmtfMeasurementDigest
        value_size := 0
        value := List.replicate MAX_SPDM_MEASUREMENT_VALUE_LEN 0 } }

def recW : SpdmMeasurementRecordStructure :=
  { number_of_blocks := 1, record := [blockW] }

/-- A KeyExchange helper environment whose crypto results are trivial but
whose request carries the given summary-hash type and requester session id. -/
def keEnvSid (t : SpdmMeasurementSummaryHashType) (rid : Nat) : KeyExchangeEnv :=
  { req := some
      { measurement_summary_hash_type := t
        req_session_id := rid
        exchange := [] }
    reader_used := 0
    exchange := some []
    final_key := some []
    encoded_response := []
    signature := some []
    th1 := some []
    transcript_data := some []
    hmac := some [] }

/-- The PskExchange analogue of keEnvSid. -/
def pskEnvSid (t : SpdmMeasurementSummaryHashType) (rid : Nat) : PskExchangeEnv :=
  { req := some { measurement_summary_hash_type := t, req_session_id := rid }
    reader_used := 0
    encoded_response := []
    th1 := some []
    transcript_data := some []
    hmac := some [] }

def stFull : ResponderState :=
  { common := ctxUnset, sessions := full_pool,
    need_measurement_summary_hash := false }

def stFree : ResponderState :=
  { common := ctxUnset, sessions := free_pool,
    need_measurement_summary_hash := false }

/-! ### Helper lemmas -/

theorem read_bytes_eq_of_le {n : Nat} {l : List Byte} (h : n ≤ l.length) :
    read_bytes n l = some (l.take n, l.drop n) := by
  induction n generalizing l with
  | zero => simp [read_bytes]
  | succ m ih =>
    cases l with
    | nil => simp at h
    | cons b r =>
      simp only [List.length_cons, Nat.succ_le_succ_iff] at h
      simp [read_bytes, ih h]

theorem vendor_read_loop_eq (n : Nat) (l : List Byte) :
    vendor_read_loop n l = (min l.length n, l.take n, l.drop n) := by
  induction n generalizing l with
  | zero => simp [vendor_read_loop]
  | succ m ih =>
    cases l with
    | nil => simp [vendor_read_loop]
    | cons b r =>
      simp [vendor_read_loop, ih r]
      omega

theorem foldl_add_eq_sum {α : Type} (g : α → Nat) (l : List α) (acc : Nat) :
    l.foldl (fun a d => a + g d) acc = acc + (l.map g).sum := by
  induction l generalizing acc with
  | nil => simp
  | cons x xs ih => simp [List.foldl_cons, ih]; omega

theorem hash_size_le (a : SpdmBaseHashAlgo) : a.get_size ≤ SPDM_MAX_HASH_SIZE := by
  cases a <;> simp [SpdmBaseHashAlgo.get_size, SPDM_MAX_HASH_SIZE]

theorem asym_size_le (a : SpdmBaseAsymAlgo) : a.get_size ≤ SPDM_MAX_ASYM_KEY_SIZE := by
  cases a <;> simp [SpdmBaseAsymAlgo.get_size, SPDM_MAX_ASYM_KEY_SIZE]

theorem dhe_size_le (a : SpdmDheAlgo) : a.get_size ≤ SPDM_MAX_DHE_KEY_SIZE := by
  cases a <;> simp [SpdmDheAlgo.get_size, SPDM_MAX_DHE_KEY_SIZE]

theorem u24_read_encode (n : Nat) (r : List Byte) :
    u24_read (u24_encode n ++ r) = some (n % 16777216, r) := by
  simp only [u24_encode, List.cons_append, List.nil_append, u24_read,
    Option.some.injEq, Prod.mk.injEq]
  refine ⟨by omega, trivial⟩

theorem read_blocks_length {k : Nat} {l bsr : List Byte}
    {bs : List SpdmMeasurementBlockStructure}
    (h : read_blocks k l = some (bs, bsr)) : bs.length = k := by
  induction k generalizing l bs bsr with
  | zero => simp [read_blocks] at h; simp [h.1]
  | succ m ih =>
    rw [read_blocks] at h
    cases hb : SpdmMeasurementBlockStructure.spdm_read l with
    | none => simp [hb] at h
    | some br =>
      obtain ⟨b, r⟩ := br
      simp only [hb] at h
      cases hr : read_blocks m r with
      | none => simp [hr] at h
      | some bt =>
        obtain ⟨bs1, rest1⟩ := bt
        simp only [hr, Option.some.injEq, Prod.mk.injEq] at h
        have hlen := ih hr
        rw [← h.1]
        simp [hlen]

theorem get_next_avaiable_session_lt {l : List SpdmSession} {i : Nat}
    (h : get_next_avaiable_session l = some i) : i < l.length := by
  induction l generalizing i with
  | nil => simp [get_next_avaiable_session] at h
  | cons s rest ih =>
    rw [get_next_avaiable_session] at h
    by_cases hs : s.session_id = 0
    · simp [hs] at h
      simp [← h]
    · simp only [hs, if_false] at h
      cases hg : get_next_avaiable_session rest with
      | none => rw [hg] at h; simp at h
      | some j =>
        rw [hg] at h
        simp only [Option.map_some', Option.some.injEq] at h
        have := ih hg
        simp [← h]
        omega

theorem get_session_via_id_found {l : List SpdmSession} {sid : Nat} {j : Nat}
    (h : get_session_via_id l sid = some j) :
    ∃ s, l[j]? = some s ∧ s.session_id = sid := by
  induction l generalizing j with
  | nil => simp [get_session_via_id] at h
  | cons s rest ih =>
    rw [get_session_via_id] at h
    by_cases hs : s.session_id = sid
    · simp only [hs, if_true] at h
      simp only [Option.some.injEq] at h
      exact ⟨s, by simp [← h], hs⟩
    · simp only [hs, if_false] at h
      cases hg : get_session_via_id rest sid with
      | none => rw [hg] at h; simp at h
      | some k =>
        rw [hg] at h
        simp only [Option.map_some', Option.some.injEq] at h
        obtain ⟨t, ht, hts⟩ := ih hg
        exact ⟨t, by simp [← h, ht], hts⟩

theorem get_session_via_id_exists {l : List SpdmSession} {sid : Nat} {i : Nat}
    {s : SpdmSession} (hi : l[i]? = some s) (hs : s.session_id = sid) :
    ∃ j, get_session_via_id l sid = some j := by
  induction l generalizing i with
  | nil => simp at hi
  | cons t rest ih =>
    rw [get_session_via_id]
    by_cases ht : t.session_id = sid
    · exact ⟨0, by simp [ht]⟩
    · cases i with
      | zero =>
        simp at hi
        rw [hi] at ht
        exact absurd hs ht
      | succ m =>
        simp only [List.getElem?_cons_succ] at hi
        obtain ⟨j, hj⟩ := ih hi
        exact ⟨j + 1, by simp [ht, hj]⟩

theorem update_session_via_id_spec {l : List SpdmSession} {sid : Nat} {j : Nat}
    (f : SpdmSession → SpdmSession)
    (hf : ∀ s, (f s).session_id = s.session_id)
    (hj : get_session_via_id l sid = some j) :
    ∃ l2 : List SpdmSession, update_session_via_id l sid f = some l2 ∧
      l2.length = l.length ∧
      ∀ i : Nat, (l2[i]?).map (fun s => s.session_id)
          = (l[i]?).map (fun s => s.session_id) := by
  refine ⟨l.set j (f (l.getD j default_session)),
    by simp [update_session_via_id, hj], by simp, ?_⟩
  intro i
  obtain ⟨s, hsj, _⟩ := get_session_via_id_found hj
  have hjlt : j < l.length := by
    by_contra hge
    rw [List.getElem?_eq_none (by omega)] at hsj
    exact absurd hsj (by simp)
  by_cases hij : i = j
  · subst hij
    rw [List.getElem?_set_self hjlt, hsj]
    simp [hf, hsj]
  · rw [List.getElem?_set_ne (by omega)]

/-- Disjoint-bit arithmetic: adding a value below 2 to the 16 to a value whose
low 16 bits are clear is the same as the bitwise or of the two. -/
theorem mul_65536_add_eq_lor (a r : Nat) (h : r < 65536) :
    a * 65536 + r = (a <<< 16) ||| r := by
  apply Nat.eq_of_testBit_eq
  intro i
  simp only [Nat.testBit_or, Nat.testBit_shiftLeft]
  by_cases hi : 16 ≤ i
  · have hr : r.testBit i = false := by
      apply Nat.testBit_lt_two_pow
      calc r < 65536 := h
        _ = 2 ^ 16 := by norm_num
        _ ≤ 2 ^ i := Nat.pow_le_pow_right (by norm_num) hi
    have hdiv : (a * 65536 + r) / 2 ^ 16 = a := by
      have h2 : (2 : Nat) ^ 16 = 65536 := by norm_num
      rw [h2]
      omega
    have hhigh : (a * 65536 + r).testBit i = a.testBit (i - 16) := by
      have h1 : (a * 65536 + r).testBit i
          = ((a * 65536 + r) >>> 16).testBit (i - 16) := by
        rw [Nat.testBit_shiftRight]
        congr 1
        omega
      rw [h1, Nat.shiftRight_eq_div_pow, hdiv]
    rw [hhigh, hr]
    simp [hi]
  · have hmod : (a * 65536 + r) % 2 ^ 16 = r := by
      have h2 : (2 : Nat) ^ 16 = 65536 := by norm_num
      rw [h2]
      omega
    have hlow : (a * 65536 + r).testBit i = r.testBit i := by
      have := Nat.testBit_mod_two_pow (a * 65536 + r) 16 i
      rw [hmod] at this
      rw [this]
      simp [Nat.lt_of_not_le (by omega : ¬ 16 ≤ i)]
    rw [hlow]
    simp [hi]

/-! ### Claim theorems -/

/-- C10: decoding the VendorDefined extended error data never fails: for
every input it returns some value whose data_size is the number of remaining
bytes capped at 32, whose data holds those bytes in order followed by zeros,
and it consumes at most 32 bytes; this covers the case of zero remaining
bytes as the instance with an empty input. -/
theorem vendor_ext_data_read_total (l : List Byte) :
    SpdmErrorResponseVendorExtData.spdm_read l =
      some ({ data_size := min l.length 32,
              data := l.take 32 ++ List.replicate (32 - min l.length 32) 0 },
            l.drop 32) := by
  simp [SpdmErrorResponseVendorExtData.spdm_read, vendor_read_loop_eq]

/-- C1 fails on the code: for the DMTF measurement structure with type
Firmware and representation Digest, the encoder emits the type byte twice
(summed) and ignores the representation, so decoding the encoding returns a
structure with type HardwareConfig, not the original value. -/
theorem dmtf_measurement_roundtrip_fails :
    (SpdmDmtfMeasurementStructure.spdm_read
        (SpdmDmtfMeasurementStructure.spdm_encode dmtfP0)).map Prod.fst
      ≠ some dmtfP0 ∧
    (SpdmDmtfMeasurementStructure.spdm_read
        (SpdmDmtfMeasurementStructure.spdm_encode dmtfP0)).map
          (fun p => p.1.type)
      = some .SpdmDmtfMeasurementHardwareConfig := by
  decide

/-- C5 fails on the code for one registry: a second registration through
asym_verify returns true (while leaving the installed provider unchanged),
because the source calls try_get_or_init there, whereas hash (like the other
six registries) uses try_init_once and correctly reports false on a second
registration. -/
theorem asym_verify_reregister_returns_true :
    crypto_asym_verify_register
        ((crypto_asym_verify_register (none : Option Nat) 1).2) 2
      = (true, some 1) ∧
    crypto_hash_register
        ((crypto_hash_register (none : Option Nat) 1).2) 2
      = (false, some 1) := by
  decide

/-- C8 fails on the code: on a certificate-chain frame whose u16 length field
(5) is smaller than 4 plus the negotiated hash size (32), the decoder's
unchecked u16 subtraction overflows, a panic rather than the None the claim
requires. -/
theorem cert_chain_short_length_panics :
    SpdmCertChain.spdm_read ctxSha256 ([5, 0, 0, 0] ++ List.replicate 32 0)
      = DecodeOutcome.panic ∧
    DecodeOutcome.panic ≠ (DecodeOutcome.fail : DecodeOutcome SpdmCertChain) := by
  decide

/-- C7 (amended): whenever the decoded request code is absent from the
dispatch table of the current path, the dispatcher returns false having
invoked no handler, and emits no message at all (in particular no
UnexpectedRequest error frame). -/
theorem dispatch_out_of_table_silent
    (envS : SecuredDispatchEnv) (envU : DispatchEnv) (bytes : List Byte)
    (hdr : SpdmMessageHeader) (rest : List Byte)
    (hh : SpdmMessageHeader.read bytes = some (hdr, rest)) :
    (secured_table hdr.request_response_code = false →
      dispatch_secured_message envS bytes = (false, [])) ∧
    (unsecured_table hdr.request_response_code = false →
      dispatch_message envU bytes = (false, [])) := by
  constructor
  · intro ht
    rw [dispatch_secured_message, hh]
    cases hc : hdr.request_response_code <;> simp_all [secured_table]
  · intro ht
    rw [dispatch_message, hh]
    cases hc : hdr.request_response_code <;> simp_all [unsecured_table]

/-- Witness for C7 at a concrete input: a GetVersion frame on the secured
path. -/
theorem dispatch_out_of_table_silent_witness :
    (secured_table SpdmResponseResponseCode.SpdmRequestGetVersion = false →
      dispatch_secured_message env0S [0x11, 0x84] = (false, [])) ∧
    (unsecured_table SpdmResponseResponseCode.SpdmRequestGetVersion = false →
      dispatch_message env0U [0x11, 0x84] = (false, [])) :=
  dispatch_out_of_table_silent env0S env0U [0x11, 0x84]
    { version := .SpdmVersion11,
      request_response_code := .SpdmRequestGetVersion } [] (by decide)

/-- Counterexample to C7 as stated: a GetVersion frame arriving on the
secured path and a Finish frame arriving on the unsecured path are both out
of table, and the dispatcher emits nothing -- in particular no
UnexpectedRequest error response reaches the peer. -/
theorem dispatch_no_unexpected_request_cex :
    dispatch_secured_message env0S [0x11, 0x84] = (false, []) ∧
    dispatch_message env0U [0x11, 0xE5] = (false, []) ∧
    ¬ (ResponderMsg.errorFrame .SpdmErrorUnexpectedRequest 0
        ∈ (dispatch_secured_message env0S [0x11, 0x84]).2) := by
  decide

/-- C2: for Digest, Signature and DheExchange, encoding an instance whose
data_size equals the negotiated size writes exactly that many bytes, and
decoding consumes exactly that many bytes, the count being taken from the
context's negotiated hash, asymmetric and DHE selections and not from the
wire (the decoded data_size equals the negotiated size whatever the input
bytes are). -/
theorem negotiated_length_honored
    (ctx : SpdmContext) (sd : SpdmDigestStruct) (ss : SpdmSignatureStruct)
    (se : SpdmDheExchangeStruct) (ld ls le : List Byte)
    (hd : sd.data_size = ctx.get_hash_size)
    (hdl : sd.data.length = SPDM_MAX_HASH_SIZE)
    (hs : ss.data_size = ctx.get_asym_key_size)
    (hsl : ss.data.length = SPDM_MAX_ASYM_KEY_SIZE)
    (he : se.data_size = ctx.get_dhe_key_size)
    (hel : se.data.length = SPDM_MAX_DHE_KEY_SIZE)
    (hld : ctx.get_hash_size ≤ ld.length)
    (hls : ctx.get_asym_key_size ≤ ls.length)
    (hle : ctx.get_dhe_key_size ≤ le.length) :
    sd.spdm_encode.length = ctx.get_hash_size ∧
    ss.spdm_encode.length = ctx.get_asym_key_size ∧
    se.spdm_encode.length = ctx.get_dhe_key_size ∧
    (∃ t, SpdmDigestStruct.spdm_read ctx ld
        = some (t, ld.drop ctx.get_hash_size) ∧
      t.data_size = ctx.get_hash_size) ∧
    (∃ t, SpdmSignatureStruct.spdm_read ctx ls
        = some (t, ls.drop ctx.get_asym_key_size) ∧
      t.data_size = ctx.get_asym_key_size) ∧
    (∃ t, SpdmDheExchangeStruct.spdm_read ctx le
        = some (t, le.drop ctx.get_dhe_key_size) ∧
      t.data_size = ctx.get_dhe_key_size) := by
  have h64 : ctx.get_hash_size ≤ SPDM_MAX_HASH_SIZE := hash_size_le _
  have h512a : ctx.get_asym_key_size ≤ SPDM_MAX_ASYM_KEY_SIZE := asym_size_le _
  have h512d : ctx.get_dhe_key_size ≤ SPDM_MAX_DHE_KEY_SIZE := dhe_size_le _
  refine ⟨?_, ?_, ?_, ?_, ?_, ?_⟩
  · simp only [SpdmDigestStruct.spdm_encode, List.length_take, hd, hdl]
    omega
  · simp only [SpdmSignatureStruct.spdm_encode, List.length_take, hs, hsl]
    omega
  · simp only [SpdmDheExchangeStruct.spdm_encode, List.length_take, he, hel]
    omega
  · simp only [SpdmDigestStruct.spdm_read, read_bytes_eq_of_le hld]
    exact ⟨_, rfl, rfl⟩
  · simp only [SpdmSignatureStruct.spdm_read, read_bytes_eq_of_le hls]
    exact ⟨_, rfl, rfl⟩
  · simp only [SpdmDheExchangeStruct.spdm_read, read_bytes_eq_of_le hle]
    exact ⟨_, rfl, rfl⟩

/-- Witness for C2 at SHA-256, ECDSA P-256 and SECP-256 selections. -/
theorem negotiated_length_honored_witness :
    digestW.spdm_encode.length = ctxSha256P256.get_hash_size ∧
    signatureW.spdm_encode.length = ctxSha256P256.get_asym_key_size ∧
    dheW.spdm_encode.length = ctxSha256P256.get_dhe_key_size ∧
    (∃ t, SpdmDigestStruct.spdm_read ctxSha256P256 (List.replicate 32 1)
        = some (t, (List.replicate 32 1).drop ctxSha256P256.get_hash_size) ∧
      t.data_size = ctxSha256P256.get_hash_size) ∧
    (∃ t, SpdmSignatureStruct.spdm_read ctxSha256P256 (List.replicate 64 1)
        = some (t, (List.replicate 64 1).drop ctxSha256P256.get_asym_key_size) ∧
      t.data_size = ctxSha256P256.get_asym_key_size) ∧
    (∃ t, SpdmDheExchangeStruct.spdm_read ctxSha256P256 (List.replicate 64 1)
        = some (t, (List.replicate 64 1).drop ctxSha256P256.get_dhe_key_size) ∧
      t.data_size = ctxSha256P256.get_dhe_key_size) :=
  negotiated_length_honored ctxSha256P256 digestW signatureW dheW
    (List.replicate 32 1) (List.replicate 64 1) (List.replicate 64 1)
    (by decide) (by decide) (by decide) (by decide) (by decide) (by decide)
    (by decide) (by decide) (by decide)

theorem ofU8_code_determines (c : Byte) :
    (SpdmErrorCode.ofU8 c = .SpdmErrorResponseNotReady → c = 0x42) ∧
    (SpdmErrorCode.ofU8 c = .SpdmErrorVendorDefined → c = 0xFF) := by
  unfold SpdmErrorCode.ofU8
  by_cases h1 : c = 0x1
  · rw [if_pos h1]
    exact ⟨fun h => SpdmErrorCode.noConfusion h,
      fun h => SpdmErrorCode.noConfusion h⟩
  rw [if_neg h1]
  by_cases h2 : c = 0x2
  · rw [if_pos h2]
    exact ⟨fun h => SpdmErrorCode.noConfusion h,
      fun h => SpdmErrorCode.noConfusion h⟩
  rw [if_neg h2]
  by_cases h3 : c = 0x3
  · rw [if_pos h3]
    exact ⟨fun h => SpdmErrorCode.noConfusion h,
      fun h => SpdmErrorCode.noConfusion h⟩
  rw [if_neg h3]
  by_cases h4 : c = 0x4
  · rw [if_pos h4]
    exact ⟨fun h => SpdmErrorCode.noConfusion h,
      fun h => SpdmErrorCode.noConfusion h⟩
  rw [if_neg h4]
  by_cases h5 : c = 0x5
  · rw [if_pos h5]
    exact ⟨fun h => SpdmErrorCode.noConfusion h,
      fun h => SpdmErrorCode.noConfusion h⟩
  rw [if_neg h5]
  by_cases h6 : c = 0x6
  · rw [if_pos h6]
    exact ⟨fun h => SpdmErrorCode.noConfusion h,
      fun h => SpdmErrorCode.noConfusion h⟩
  rw [if_neg h6]
  by_cases h7 : c = 0x7
  · rw [if_pos h7]
    exact ⟨fun h => SpdmErrorCode.noConfusion h,
      fun h => SpdmErrorCode.noConfusion h⟩
  rw [if_neg h7]
  by_cases h8 : c = 0x8
  · rw [if_pos h8]
    exact ⟨fun h => SpdmErrorCode.noConfusion h,
      fun h => SpdmErrorCode.noConfusion h⟩
  rw [if_neg h8]
  by_cases h9 : c = 0x9
  · rw [if_pos h9]
    exact ⟨fun h => SpdmErrorCode.noConfusion h,
      fun h => SpdmErrorCode.noConfusion h⟩
  rw [if_neg h9]
  by_cases h10 : c = 0xA
  · rw [if_pos h10]
    exact ⟨fun h => SpdmErrorCode.noConfusion h,
      fun h => SpdmErrorCode.noConfusion h⟩
  rw [if_neg h10]
  by_cases h11 : c = 0x41
  · rw [if_pos h11]
    exact ⟨fun h => SpdmErrorCode.noConfusion h,
      fun h => SpdmErrorCode.noConfusion h⟩
  rw [if_neg h11]
  by_cases h12 : c = 0x42
  · rw [if_pos h12]
    exact ⟨fun _ => h12, fun h => SpdmErrorCode.noConfusion h⟩
  rw [if_neg h12]
  by_cases h13 : c = 0x43
  · rw [if_pos h13]
    exact ⟨fun h => SpdmErrorCode.noConfusion h,
      fun h => SpdmErrorCode.noConfusion h⟩
  rw [if_neg h13]
  by_cases h14 : c = 0xFF
  · rw [if_pos h14]
    exact ⟨fun h => SpdmErrorCode.noConfusion h, fun _ => h14⟩
  rw [if_neg h14]
  exact ⟨fun h => SpdmErrorCode.noConfusion h,
    fun h => SpdmErrorCode.noConfusion h⟩

/-- C3: decoding an error-response payload discriminates the extended data on
the error_code byte: 0x42 always yields ResponseNotReady extended data when
the decode succeeds (and it succeeds as soon as four more bytes follow),
0xFF always succeeds and yields VendorDefined extended data, and every other
code always succeeds and yields the None extended data. -/
theorem error_frame_discriminant
    (input : List Byte) (c d : Byte) (rest : List Byte)
    (heq : input = c :: d :: rest) :
    (c = 0x42 →
      (∀ p r2, SpdmErrorResponsePayload.spdm_read input = some (p, r2) →
        ∃ e, p.extended_data = .SpdmErrorExtDataNotReady e) ∧
      (4 ≤ rest.length →
        ∃ p r2, SpdmErrorResponsePayload.spdm_read input = some (p, r2) ∧
          ∃ e, p.extended_data = .SpdmErrorExtDataNotReady e)) ∧
    (c = 0xFF →
      ∃ p r2, SpdmErrorResponsePayload.spdm_read input = some (p, r2) ∧
        ∃ e, p.extended_data = .SpdmErrorExtDataVendorDefined e) ∧
    (c ≠ 0x42 → c ≠ 0xFF →
      ∃ p r2, SpdmErrorResponsePayload.spdm_read input = some (p, r2) ∧
        p.extended_data = .SpdmErrorExtDataNone {}) := by
  subst heq
  refine ⟨?_, ?_, ?_⟩
  · intro hc
    subst hc
    constructor
    · intro p r2 hp
      simp only [SpdmErrorResponsePayload.spdm_read, SpdmErrorCode.read,
        u8_read] at hp
      have hcode : SpdmErrorCode.ofU8 0x42 = .SpdmErrorResponseNotReady := by
        decide
      rw [hcode] at hp
      cases hnr : SpdmErrorResponseNotReadyExtData.spdm_read rest with
      | none => rw [hnr] at hp; simp at hp
      | some er =>
        obtain ⟨e, r3⟩ := er
        rw [hnr] at hp
        simp only [Option.some.injEq, Prod.mk.injEq] at hp
        exact ⟨e, by rw [← hp.1]⟩
    · intro hlen
      rcases rest with _ | ⟨a, rest⟩
      · simp at hlen
      rcases rest with _ | ⟨b, rest⟩
      · simp at hlen
      rcases rest with _ | ⟨e, rest⟩
      · simp at hlen
      rcases rest with _ | ⟨f, r5⟩
      · simp at hlen
      exact ⟨_, _, rfl, _, rfl⟩
  · intro hc
    subst hc
    simp only [SpdmErrorResponsePayload.spdm_read, SpdmErrorCode.read, u8_read]
    have hcode : SpdmErrorCode.ofU8 0xFF = .SpdmErrorVendorDefined := by decide
    rw [hcode]
    simp only [SpdmErrorResponseVendorExtData.spdm_read, vendor_read_loop_eq]
    exact ⟨_, _, rfl, _, rfl⟩
  · intro h42 hFF
    simp only [SpdmErrorResponsePayload.spdm_read, SpdmErrorCode.read, u8_read]
    cases hoc : SpdmErrorCode.ofU8 c with
    | SpdmErrorResponseNotReady =>
      exact absurd ((ofU8_code_determines c).1 hoc) h42
    | SpdmErrorVendorDefined =>
      exact absurd ((ofU8_code_determines c).2 hoc) hFF
    | _ =>
      exact ⟨_, _, rfl, rfl⟩

/-- Witness for C3 at the concrete frame 42 00 01 02 03 04. -/
theorem error_frame_discriminant_witness :
    ((0x42 : Byte) = 0x42 →
      (∀ p r2, SpdmErrorResponsePayload.spdm_read
          [0x42, 0, 1, 2, 3, 4] = some (p, r2) →
        ∃ e, p.extended_data = .SpdmErrorExtDataNotReady e) ∧
      (4 ≤ ([1, 2, 3, 4] : List Byte).length →
        ∃ p r2, SpdmErrorResponsePayload.spdm_read
            [0x42, 0, 1, 2, 3, 4] = some (p, r2) ∧
          ∃ e, p.extended_data = .SpdmErrorExtDataNotReady e)) ∧
    ((0x42 : Byte) = 0xFF →
      ∃ p r2, SpdmErrorResponsePayload.spdm_read
          [0x42, 0, 1, 2, 3, 4] = some (p, r2) ∧
        ∃ e, p.extended_data = .SpdmErrorExtDataVendorDefined e) ∧
    ((0x42 : Byte) ≠ 0x42 → (0x42 : Byte) ≠ 0xFF →
      ∃ p r2, SpdmErrorResponsePayload.spdm_read
          [0x42, 0, 1, 2, 3, 4] = some (p, r2) ∧
        p.extended_data = .SpdmErrorExtDataNone {}) :=
  error_frame_discriminant [0x42, 0, 1, 2, 3, 4] 0x42 0 [1, 2, 3, 4] (by decide)

/-- C4: encoding a measurement record writes a 24-bit record length equal to
the sum of measurement_size + 4 over its number_of_blocks blocks (under the
structural invariant the encoder itself enforces by panicking), and decoding
returns none whenever the wire record length differs from that sum over the
decoded blocks or some decoded block violates
measurement_size = value_size + 3. -/
theorem measurement_record_length
    (s : SpdmMeasurementRecordStructure)
    (input r1 r2 rest : List Byte) (n len : Nat)
    (bs : List SpdmMeasurementBlockStructure)
    (hInv : ∀ b ∈ s.record.take s.number_of_blocks,
      b.measurement_size = b.measurement.value_size + 3)
    (hsum : ((s.record.take s.number_of_blocks).map
      (fun b => b.measurement_size + 4)).sum < 16777216)
    (hu8 : u8_read input = some (n, r1))
    (hu24 : u24_read r1 = some (len, r2))
    (hbs : read_blocks (min n MAX_SPDM_MEASUREMENT_BLOCK_COUNT) r2
      = some (bs, rest))
    (hbad : (∃ b ∈ bs, b.measurement_size ≠ b.measurement.value_size + 3) ∨
      (bs.map (fun b => b.measurement_size + 4)).sum ≠ len) :
    (∃ out, s.spdm_encode = some out ∧
      (u24_read (out.drop 1)).map Prod.fst = some
        (((s.record.take s.number_of_blocks).map
          (fun b => b.measurement_size + 4)).sum)) ∧
    SpdmMeasurementRecordStructure.spdm_read input = none := by
  constructor
  · have hall : (s.record.take s.number_of_blocks).all
        (fun d => d.measurement_size = d.measurement.value_size + 3) = true := by
      rw [List.all_eq_true]
      intro x hx
      simpa using hInv x hx
    have hfold : (s.record.take s.number_of_blocks).foldl
        (fun acc d => acc + (d.measurement_size + 4)) 0
        = ((s.record.take s.number_of_blocks).map
          (fun b => b.measurement_size + 4)).sum := by
      rw [foldl_add_eq_sum]
      omega
    rw [SpdmMeasurementRecordStructure.spdm_encode]
    rw [if_pos hall]
    refine ⟨_, rfl, ?_⟩
    simp only [List.drop_succ_cons, List.drop_zero]
    rw [u24_read_encode]
    simp only [Option.map_some']
    rw [hfold, Nat.mod_eq_of_lt hsum]
  · have hlen : bs.length = min n MAX_SPDM_MEASUREMENT_BLOCK_COUNT :=
      read_blocks_length hbs
    have hchecked : ((bs ++ List.replicate
        (MAX_SPDM_MEASUREMENT_BLOCK_COUNT - bs.length)
        SpdmMeasurementBlockStructure.default_block).take n) = bs := by
      rcases Nat.le_total n MAX_SPDM_MEASUREMENT_BLOCK_COUNT with h8 | h8
      · have hbn : bs.length = n := by omega
        exact List.take_left' hbn
      · have hb8 : bs.length = MAX_SPDM_MEASUREMENT_BLOCK_COUNT := by omega
        rw [hb8, Nat.sub_self, List.replicate_zero, List.append_nil]
        exact List.take_of_length_le (by omega)
    rw [SpdmMeasurementRecordStructure.spdm_read, hu8]
    simp only [hu24, hbs, hchecked]
    rcases hbad with ⟨b, hb, hbne⟩ | hsne
    · have hfalse : (bs.all
          (fun d => d.measurement_size = d.measurement.value_size + 3))
          = false := by
        rw [List.all_eq_false]
        exact ⟨b, hb, by simpa using hbne⟩
      rw [hfalse]
      simp
    · by_cases hall : (bs.all
          (fun d => d.measurement_size = d.measurement.value_size + 3)) = true
      · rw [hall]
        have hne : bs.foldl (fun acc d => acc + (d.measurement_size + 4)) 0
            ≠ len := by
          rw [foldl_add_eq_sum]
          simpa using hsne
        simp [hne]
      · rw [Bool.not_eq_true] at hall
        rw [hall]
        simp

/-- Witness for C4: a one-block record with an empty measurement value, and
a wire frame whose record length field 5 disagrees with the block sum 7. -/
theorem measurement_record_length_witness :
    (∃ out, recW.spdm_encode = some out ∧
      (u24_read (out.drop 1)).map Prod.fst = some
        (((recW.record.take recW.number_of_blocks).map
          (fun b => b.measurement_size + 4)).sum)) ∧
    SpdmMeasurementRecordStructure.spdm_read
      [1, 5, 0, 0, 0, 1, 3, 0, 0, 0, 0] = none :=
  measurement_record_length recW [1, 5, 0, 0, 0, 1, 3, 0, 0, 0, 0]
    [5, 0, 0, 0, 1, 3, 0, 0, 0, 0] [0, 1, 3, 0, 0, 0, 0] [] 1 5 [blockW]
    (by decide) (by decide) (by decide) (by decide) (by decide)
    (Or.inr (by decide))

/-- C6 (amended): when the KeyExchange or PskExchange handler reaches session
allocation with no free slot, it sends a single error frame whose code is
InvalidRequest (0x01) -- not SessionLimitExceeded -- and the session pool is
unchanged. -/
theorem session_pool_exhausted_invalid_request
    (env : KeyExchangeEnv) (penv : PskExchangeEnv) (st : ResponderState)
    (bytes : List Byte)
    (req : SpdmKeyExchangeRequestPayload) (preq : SpdmPskExchangeRequestPayload)
    (ex fk sig th1 pth1 m1 m2 m3 pm1 pm2 : List Byte)
    (hreq : env.req = some req)
    (hex : env.exchange = some ex)
    (hfk : env.final_key = some fk)
    (hused : st.common.get_asym_key_size + st.common.get_hash_size
      ≤ env.encoded_response.length)
    (hm1 : append_message [] (bytes.take env.reader_used) = some m1)
    (hm2 : append_message m1 (env.encoded_response.take
      (env.encoded_response.length - st.common.get_asym_key_size
        - st.common.get_hash_size)) = some m2)
    (hsig : env.signature = some sig)
    (hm3 : append_message m2 sig = some m3)
    (hth : env.th1 = some th1)
    (hpool : get_next_avaiable_session st.sessions = none)
    (hpreq : penv.req = some preq)
    (hpused : st.common.get_hash_size ≤ penv.encoded_response.length)
    (hpm1 : append_message [] (bytes.take penv.reader_used) = some pm1)
    (hpm2 : append_message pm1 (penv.encoded_response.take
      (penv.encoded_response.length - st.common.get_hash_size)) = some pm2)
    (hpth : penv.th1 = some pth1) :
    handle_spdm_key_exchange env st bytes
      = some ({ st with need_measurement_summary_hash :=
          need_meas_summary req.measurement_summary_hash_type },
        [.errorFrame .SpdmErrorInvalidRequest 0]) ∧
    handle_spdm_psk_exchange penv st bytes
      = some ({ st with need_measurement_summary_hash :=
          need_meas_summary preq.measurement_summary_hash_type },
        [.errorFrame .SpdmErrorInvalidRequest 0]) := by
  constructor
  · rw [handle_spdm_key_exchange, hreq]
    simp only [hex, hfk, hm1]
    rw [if_neg (by omega)]
    simp only [hm2, hsig, hm3, hth, hpool]
  · rw [handle_spdm_psk_exchange, hpreq]
    simp only [hpm1]
    rw [if_neg (by omega)]
    simp only [hpm2, hpth, hpool]

/-- Witness for C6 at a full pool of four sessions and trivial negotiated
sizes. -/
theorem session_pool_exhausted_invalid_request_witness :
    handle_spdm_key_exchange keEnvW stFull []
      = some ({ stFull with need_measurement_summary_hash := need_meas_summary keReqW.measurement_summary_hash_type },
        [.errorFrame .SpdmErrorInvalidRequest 0]) ∧
    handle_spdm_psk_exchange pskEnvW stFull []
      = some ({ stFull with need_measurement_summary_hash := need_meas_summary pskReqW.measurement_summary_hash_type },
        [.errorFrame .SpdmErrorInvalidRequest 0]) :=
  session_pool_exhausted_invalid_request keEnvW pskEnvW stFull []
    keReqW pskReqW [] [] [] [] [] [] [] [] [] []
    (by decide) (by decide) (by decide) (by decide) (by decide) (by decide)
    (by decide) (by decide) (by decide) (by decide) (by decide) (by decide)
    (by decide) (by decide) (by decide)

/-- Counterexample to C6 as stated: with all four slots active, the fifth
KeyExchange is answered with a single error frame whose code is
InvalidRequest, which differs from the SessionLimitExceeded code the claim
requires; the pool is indeed unchanged. -/
theorem session_pool_exhausted_code_cex :
    (handle_spdm_key_exchange keEnvW stFull []).map Prod.snd
      = some [ResponderMsg.errorFrame .SpdmErrorInvalidRequest 0] ∧
    (handle_spdm_key_exchange keEnvW stFull []).map (fun p => p.1.sessions)
      = some stFull.sessions ∧
    SpdmErrorCode.SpdmErrorInvalidRequest ≠ .SpdmErrorSessionLimitExceeded := by
  decide

/-- C9: the 32-bit session id the handlers assign to the newly set-up session
equals the requester's 16-bit id shifted left by 16 bits or-ed with the
responder's 16-bit id, which is 0xFFFE for KeyExchange and 0xFFFD for
PskExchange (the source computes it with an addition, which coincides with
the bitwise or because the responder id occupies only the cleared low 16
bits). -/
theorem session_id_formation (t : SpdmMeasurementSummaryHashType) (rid : Nat) :
    (∃ stF msgs sF,
      handle_spdm_key_exchange (keEnvSid t rid) stFree [] = some (stF, msgs) ∧
      stF.sessions[0]? = some sF ∧
      sF.session_id = ((rid <<< 16) ||| 0xFFFE)) ∧
    (∃ stF msgs sF,
      handle_spdm_psk_exchange (pskEnvSid t rid) stFree [] = some (stF, msgs) ∧
      stF.sessions[0]? = some sF ∧
      sF.session_id = ((rid <<< 16) ||| 0xFFFD)) := by
  constructor
  · have hke : handle_spdm_key_exchange (keEnvSid t rid) stFree []
        = some
          ({ common := ctxUnset
             sessions :=
               [{ session_id := rid * 65536 + 65534
                  session_state := .SpdmSessionHandshaking
                  use_psk := false
                  dhe_secret := []
                  message_k := [] },
                default_session, default_session, default_session]
             need_measurement_summary_hash := need_meas_summary t },
           [.response []]) := by
      simp [handle_spdm_key_exchange, keEnvSid, stFree, free_pool,
        default_session, get_next_avaiable_session, get_session_via_id,
        update_session_via_id, append_message, MAX_SPDM_MESSAGE_BUFFER_SIZE,
        need_meas_summary, ctxUnset, SpdmContext.get_hash_size,
        SpdmContext.get_asym_key_size, SpdmBaseHashAlgo.get_size,
        SpdmBaseAsymAlgo.get_size]
    exact ⟨_, _, _, hke, rfl, (mul_65536_add_eq_lor rid 65534 (by norm_num)).symm ▸ rfl⟩
  · have hpsk : handle_spdm_psk_exchange (pskEnvSid t rid) stFree []
        = some
          ({ common := ctxUnset
             sessions :=
               [{ session_id := rid * 65536 + 65533
                  session_state := .SpdmSessionHandshaking
                  use_psk := true
                  dhe_secret := TestPskData
                  message_k := [] },
                default_session, default_session, default_session]
             need_measurement_summary_hash := need_meas_summary t },
           [.response []]) := by
      simp [handle_spdm_psk_exchange, pskEnvSid, stFree, free_pool,
        default_session, get_next_avaiable_session, get_session_via_id,
        update_session_via_id, append_message, MAX_SPDM_MESSAGE_BUFFER_SIZE,
        need_meas_summary, ctxUnset, SpdmContext.get_hash_size,
        SpdmBaseHashAlgo.get_size]
    exact ⟨_, _, _, hpsk, rfl, (mul_65536_add_eq_lor rid 65533 (by norm_num)).symm ▸ rfl⟩

/-- Witness for C9 at requester session id 5. -/
theorem session_id_formation_witness :
    (∃ stF msgs sF,
      handle_spdm_key_exchange
          (keEnvSid .SpdmMeasurementSummaryHashTypeNone 5) stFree []
        = some (stF, msgs) ∧
      stF.sessions[0]? = some sF ∧
      sF.session_id = (((5 : Nat) <<< 16) ||| 0xFFFE)) ∧
    (∃ stF msgs sF,
      handle_spdm_psk_exchange
          (pskEnvSid .SpdmMeasurementSummaryHashTypeNone 5) stFree []
        = some (stF, msgs) ∧
      stF.sessions[0]? = some sF ∧
      sF.session_id = (((5 : Nat) <<< 16) ||| 0xFFFD)) :=
  session_id_formation .SpdmMeasurementSummaryHashTypeNone 5

/-- Witness for C10 at a two-byte remainder. -/
theorem vendor_ext_data_read_total_witness :
    SpdmErrorResponseVendorExtData.spdm_read [9, 9] =
      some ({ data_size := min ([9, 9] : List Byte).length 32,
              data := ([9, 9] : List Byte).take 32 ++
                List.replicate (32 - min ([9, 9] : List Byte).length 32) 0 },
            ([9, 9] : List Byte).drop 32) :=
  vendor_ext_data_read_total [9, 9]

end Spdm
